import Mathlib

/-!
Verification development for the research-mate client application.

The repository is a client-side web application: a typed API client over
`fetch` (src/frontend/lib/api.ts), a session store persisting the current
user to local storage (src/frontend/lib/auth-context.tsx), route-bound page
components that fetch on mount, and a presentational SVG graph renderer
(src/frontend/components/paper-graph.tsx).

This file gives a shallow embedding of those parts:
  * JSON values are modelled by the inductive `Json` (a request body is the
    value passed to JSON.stringify; a response body is the value returned by
    response.json()).
  * The network is modelled by a function from request specifications to
    HTTP responses; each API-client method builds its request specification
    exactly as in the source and delegates to the shared `request` helper.
  * The session store is a pair of the in-memory user and the local-storage
    entry under key "user" (modelled at the JSON-value level: the source
    writes JSON.stringify(user) and reads JSON.parse, which round-trip).
  * Page mounts, the chat send handler, and the graph renderer are embedded
    as pure functions of their inputs.
-/

namespace ResearchMate

/-- JSON values, as produced by `response.json()` / consumed by
`JSON.stringify`. Object fields are kept in insertion order, as JavaScript
does for string keys. -/
inductive Json where
  | null : Json
  | bool (b : Bool) : Json
  | num (n : Int) : Json
  | str (s : String) : Json
  | arr (elems : List Json) : Json
  | obj (fields : List (String × Json)) : Json

/-- Field access on a JSON object (`body.detail` on a parsed body):
the value of the first field with the given key, or none when the value is
not an object or has no such field. -/
def Json.getField : Json → String → Option Json
  | .obj fields, key => fields.lookup key
  | _, _ => none

/-- HTTP methods used by the client. -/
inductive HttpMethod where
  | get : HttpMethod
  | post : HttpMethod
  | put : HttpMethod

/-- A request as assembled by `ApiClient.request`: the URL
(`API_BASE_URL` is the empty string by default, so the URL is the endpoint
path), the method, and the JSON body when one is sent. Every request
carries the Content-Type: application/json header, so headers are not part
of the model. -/
structure RequestSpec where
  url : String
  method : HttpMethod
  body : Option Json

/-- An HTTP response as observed by `ApiClient.request`: the `ok` flag and
the parsed JSON body. -/
structure HttpResponse where
  ok : Bool
  body : Json

/-- The network: what response comes back for a given request. -/
def Net : Type := RequestSpec → HttpResponse

/-- The fixed fallback error message of `ApiClient.request`
("API 요청이 실패했습니다."). -/
def defaultApiErrorMessage : String := "API 요청이 실패했습니다."

/-- The error message thrown by `ApiClient.request` on a non-ok response:
`error.detail || "API 요청이 실패했습니다."`. The `ApiError` interface
declares `detail : string`, so the field is a string when present; a
missing field (undefined) and the empty string are falsy, so both fall
back to the fixed message. -/
def errorMessage (body : Json) : String :=
  match body.getField "detail" with
  | some (.str d) => if d = "" then defaultApiErrorMessage else d
  | _ => defaultApiErrorMessage

/-- `ApiClient.request`: fetch the URL, and if the response is ok return
the parsed JSON body, otherwise throw an error whose message is the
`detail` of the parsed error body, with a fixed fallback. -/
def request (spec : RequestSpec) (net : Net) : Except String Json :=
  let response := net spec
  if response.ok then .ok response.body
  else .error (errorMessage response.body)

/-! Request specifications of the individual `ApiClient` endpoint methods,
each built exactly as in src/frontend/lib/api.ts. -/

/-- `addToCalendar`: POST /add-to-calendar with the event date. -/
def addToCalendarSpec (eventDate : String) : RequestSpec :=
  ⟨"/add-to-calendar", .post, some (.obj [("event_date", .str eventDate)])⟩

/-- `register`: POST /auth/register. -/
def registerSpec (username password interest level : String) : RequestSpec :=
  ⟨"/auth/register", .post, some (.obj
    [("username", .str username), ("password", .str password),
     ("interest", .str interest), ("level", .str level)])⟩

/-- `login`: POST /auth/login. -/
def loginSpec (username password : String) : RequestSpec :=
  ⟨"/auth/login", .post, some (.obj
    [("username", .str username), ("password", .str password)])⟩

/-- `getAdvice`: GET /{userId}/advice. -/
def getAdviceSpec (userId : Int) : RequestSpec :=
  ⟨s!"/{userId}/advice", .get, none⟩

/-- `acceptInterestChange`: POST /{userId}/advice/accept-interest. -/
def acceptInterestChangeSpec (userId : Int) (newInterest : String) : RequestSpec :=
  ⟨s!"/{userId}/advice/accept-interest", .post,
    some (.obj [("new_interest", .str newInterest)])⟩

/-- `acceptLevelChange`: POST /{userId}/advice/accept-level. -/
def acceptLevelChangeSpec (userId : Int) (newLevel : String) : RequestSpec :=
  ⟨s!"/{userId}/advice/accept-level", .post,
    some (.obj [("new_level", .str newLevel)])⟩

/-- `getTodayRecommendations`: GET /{userId}/recommendations/today. -/
def getTodayRecommendationsSpec (userId : Int) : RequestSpec :=
  ⟨s!"/{userId}/recommendations/today", .get, none⟩

/-- `getTodayRecommendationsRelations`:
GET /{userId}/recommendations/today/relations1. -/
def getTodayRecommendationsRelationsSpec (userId : Int) : RequestSpec :=
  ⟨s!"/{userId}/recommendations/today/relations1", .get, none⟩

/-- `requestPaper`: POST /{userId}/recommendations/request-paper1. -/
def requestPaperSpec (userId paperId : Int) (reason : String) : RequestSpec :=
  ⟨s!"/{userId}/recommendations/request-paper1", .post,
    some (.obj [("paper_id", .num paperId), ("reason", .str reason)])⟩

/-- `getPapersHistory`: GET /{userId}/papers/history. -/
def getPapersHistorySpec (userId : Int) : RequestSpec :=
  ⟨s!"/{userId}/papers/history", .get, none⟩

/-- `getPaperDetail`: GET /papers/{paperId}/{userId}. -/
def getPaperDetailSpec (paperId userId : Int) : RequestSpec :=
  ⟨s!"/papers/{paperId}/{userId}", .get, none⟩

/-- `updateProfile`: PUT /users/{userId} with the interest/level data. -/
def updateProfileSpec (userId : Int) (interest level : String) : RequestSpec :=
  ⟨s!"/users/{userId}", .put,
    some (.obj [("interest", .str interest), ("level", .str level)])⟩

/-- `sharePaperToKakao`: POST /papers/{paperId}/share-kakao; the nullable
pdf_url and ai_summary arguments serialize to JSON null when absent. -/
def sharePaperToKakaoSpec (paperId : Int) (paperTitle : String)
    (pdfUrl aiSummary : Option String) : RequestSpec :=
  ⟨s!"/papers/{paperId}/share-kakao", .post,
    some (.obj
      [("paper_title", .str paperTitle),
       ("pdf_url", match pdfUrl with | some s => .str s | none => .null),
       ("ai_summary", match aiSummary with | some s => .str s | none => .null)])⟩

/-- `addPaperByArxivId`: POST /papers/add. The body carries the literal
`user_id: 3`; the `userId` parameter of the method is not used. -/
def addPaperByArxivIdSpec (arxivId : String) (userId : Int) : RequestSpec :=
  ⟨"/papers/add", .post,
    some (.obj [("arxiv_id", .str arxivId), ("user_id", .num 3)])⟩

/-- `chatWithPaper`: POST /papers/{paperId}/chat. -/
def chatWithPaperSpec (paperId userId : Int) (question : String) : RequestSpec :=
  ⟨s!"/papers/{paperId}/chat", .post,
    some (.obj [("user_id", .num userId), ("question", .str question)])⟩

/-- One call to an endpoint method of `ApiClient`, with its arguments:
every public method of the client. -/
inductive Endpoint where
  | addToCalendar (eventDate : String)
  | register (username password interest level : String)
  | login (username password : String)
  | getAdvice (userId : Int)
  | acceptInterestChange (userId : Int) (newInterest : String)
  | acceptLevelChange (userId : Int) (newLevel : String)
  | getTodayRecommendations (userId : Int)
  | getTodayRecommendationsRelations (userId : Int)
  | requestPaper (userId paperId : Int) (reason : String)
  | getPapersHistory (userId : Int)
  | getPaperDetail (paperId userId : Int)
  | updateProfile (userId : Int) (interest level : String)
  | sharePaperToKakao (paperId : Int) (paperTitle : String) (pdfUrl aiSummary : Option String)
  | addPaperByArxivId (arxivId : String) (userId : Int)
  | chatWithPaper (paperId userId : Int) (question : String)

/-- The request specification an endpoint method builds. -/
def Endpoint.spec : Endpoint → RequestSpec
  | .addToCalendar d => addToCalendarSpec d
  | .register u p i l => registerSpec u p i l
  | .login u p => loginSpec u p
  | .getAdvice uid => getAdviceSpec uid
  | .acceptInterestChange uid ni => acceptInterestChangeSpec uid ni
  | .acceptLevelChange uid nl => acceptLevelChangeSpec uid nl
  | .getTodayRecommendations uid => getTodayRecommendationsSpec uid
  | .getTodayRecommendationsRelations uid => getTodayRecommendationsRelationsSpec uid
  | .requestPaper uid pid r => requestPaperSpec uid pid r
  | .getPapersHistory uid => getPapersHistorySpec uid
  | .getPaperDetail pid uid => getPaperDetailSpec pid uid
  | .updateProfile uid i l => updateProfileSpec uid i l
  | .sharePaperToKakao pid t pu su => sharePaperToKakaoSpec pid t pu su
  | .addPaperByArxivId a uid => addPaperByArxivIdSpec a uid
  | .chatWithPaper pid uid q => chatWithPaperSpec pid uid q

/-- Running an endpoint method: every method of `ApiClient` returns
`this.request(endpoint, options)` on the specification it builds. -/
def Endpoint.run (e : Endpoint) (net : Net) : Except String Json :=
  request e.spec net

/-! ## Session store (src/frontend/lib/auth-context.tsx, AuthProvider)

The store holds `user : User | null` in memory and persists it under the
local-storage key "user". Local storage holds `JSON.stringify(user)`; the
load path applies `JSON.parse`. Since stringify and parse round-trip on
the values the store writes, the entry is modelled at the JSON-value
level: `storage = some j` means the "user" entry holds the serialization
of `j`, `none` means the entry is absent. The API calls the operations
make are modelled by an `Except` argument carrying the outcome the call
would produce (`.ok` the parsed response, `.error` the thrown message). -/

/-- The `User` interface of auth-context.tsx. -/
structure User where
  id : Int
  username : String
  interest : String
  level : String

/-- `JSON.stringify(user)` at the JSON-value level: the four fields in
their insertion order (id, username, interest, level) — the order every
construction site of a `User` object in the source uses. -/
def User.toJson (u : User) : Json :=
  .obj [("id", .num u.id), ("username", .str u.username),
        ("interest", .str u.interest), ("level", .str u.level)]

/-- Decoding a stored JSON value back to a `User`. The source trusts the
parsed value (`JSON.parse(storedUser)` is assigned to the typed state with
no validation); the decoder makes that cast explicit for well-formed
entries. -/
def userOfJson (j : Json) : Option User :=
  match j.getField "id", j.getField "username",
        j.getField "interest", j.getField "level" with
  | some (.num id), some (.str username), some (.str interest), some (.str level) =>
      some ⟨id, username, interest, level⟩
  | _, _, _, _ => none

/-- The state of the session store: the in-memory `user` and the
local-storage entry under key "user". -/
structure AuthState where
  user : Option User
  storage : Option Json

/-- The response shape of POST /auth/login and (with created_at dropped,
as the store drops it) POST /auth/register. -/
structure AuthResponse where
  user_id : Int
  username : String
  interest : String
  level : String

namespace AuthProvider

/-- The initial-load effect: read `localStorage.getItem("user")` and, when
an entry is present, set the user to the parsed value. The in-memory user
starts as null. -/
def loadFromStorage (stored : Option Json) : AuthState :=
  match stored with
  | none => ⟨none, none⟩
  | some j => ⟨userOfJson j, some j⟩

/-- `login`: call the API; on success build the logged-in user from the
response, store it in memory and in local storage, and return true; on a
thrown error log/alert and return false, leaving the state alone. -/
def login (st : AuthState) (apiResult : Except String AuthResponse) :
    AuthState × Bool :=
  match apiResult with
  | .ok r =>
      let loggedInUser : User := ⟨r.user_id, r.username, r.interest, r.level⟩
      (⟨some loggedInUser, some loggedInUser.toJson⟩, true)
  | .error _ => (st, false)

/-- `signup`: same shape as `login`, against POST /auth/register. -/
def signup (st : AuthState) (apiResult : Except String AuthResponse) :
    AuthState × Bool :=
  match apiResult with
  | .ok r =>
      let newUser : User := ⟨r.user_id, r.username, r.interest, r.level⟩
      (⟨some newUser, some newUser.toJson⟩, true)
  | .error _ => (st, false)

/-- `logout`: clear the in-memory user and remove the "user" entry. -/
def logout (_st : AuthState) : AuthState := ⟨none, none⟩

/-- `updateInterest`: when a user is present, overwrite its interest and
persist; otherwise do nothing. -/
def updateInterest (st : AuthState) (interest : String) : AuthState :=
  match st.user with
  | some u =>
      let updatedUser : User := { u with interest := interest }
      ⟨some updatedUser, some updatedUser.toJson⟩
  | none => st

/-- `updateLevel`: when a user is present, overwrite its level and
persist; otherwise do nothing. -/
def updateLevel (st : AuthState) (level : String) : AuthState :=
  match st.user with
  | some u =>
      let updatedUser : User := { u with level := level }
      ⟨some updatedUser, some updatedUser.toJson⟩
  | none => st

/-- Outcome of `updateProfile`: the new store state, the returned boolean,
and whether the API was called. -/
structure ProfileUpdateOutcome where
  state : AuthState
  returned : Bool
  calledApi : Bool

/-- `updateProfile`: return false immediately when no user is logged in
(before any API call); otherwise PUT the new interest/level, and on
success replace the stored user by one with the same id and username and
the argument interest and level, persist it, and return true; on a thrown
error return false with the state unchanged. The API response value is
not used. -/
def updateProfile (st : AuthState) (interest level : String)
    (apiResult : Except String Json) : ProfileUpdateOutcome :=
  match st.user with
  | none => ⟨st, false, false⟩
  | some u =>
      match apiResult with
      | .ok _ =>
          let updatedUser : User := ⟨u.id, u.username, interest, level⟩
          ⟨⟨some updatedUser, some updatedUser.toJson⟩, true, true⟩
      | .error _ => ⟨st, false, true⟩

end AuthProvider

/-- Consistency of the session store with local storage: a non-null
in-memory user is serialized exactly in the "user" entry, and a null user
means the entry is absent. -/
def consistent (st : AuthState) : Prop :=
  match st.user with
  | some u => st.storage = some u.toJson
  | none => st.storage = none

/-! ## Session-requiring pages: mount behaviour

Each of the six session-requiring pages follows the same shape: a mount
effect that redirects to /login when the session store holds no user and
otherwise starts its fetch (each fetch helper is additionally guarded by
`if (!user) return`), and a render that returns null while no user is
present. `MountEffect` records the redirect target, the API-client calls
the mount makes, and whether the page renders anything. -/

/-- The API-client calls the pages make on mount. -/
inductive MountApiCall where
  | getAdvice (userId : Int)
  | getTodayRecommendations (userId : Int)
  | getPapersHistory (userId : Int)
  | getPaperDetail (paperId userId : Int)

/-- What mounting a page does: where it navigates, which API-client
methods it invokes, and whether it renders content (false = the component
returns null). -/
structure MountEffect where
  redirectTo : Option String
  apiCalls : List MountApiCall
  rendersContent : Bool

/-- HomePage mount (src/unnamed/part_000): no user → push /login, render
null; user → fetchAdvice, which calls api.getAdvice(user.id). -/
def HomePage.mount (user : Option User) : MountEffect :=
  match user with
  | none => ⟨some "/login", [], false⟩
  | some u => ⟨none, [.getAdvice u.id], true⟩

/-- RecommendationsPage mount: no user → push /login, render null;
user → fetchRecommendations, calling api.getTodayRecommendations(user.id). -/
def RecommendationsPage.mount (user : Option User) : MountEffect :=
  match user with
  | none => ⟨some "/login", [], false⟩
  | some u => ⟨none, [.getTodayRecommendations u.id], true⟩

/-- HistoryPage mount: no user → push /login, render null; user →
fetchHistory, calling api.getPapersHistory(user.id). -/
def HistoryPage.mount (user : Option User) : MountEffect :=
  match user with
  | none => ⟨some "/login", [], false⟩
  | some u => ⟨none, [.getPapersHistory u.id], true⟩

/-- PaperDetailPage mount: no user → push /login, render null; user →
fetchPaperDetail, calling api.getPaperDetail(paperId, user.id). -/
def PaperDetailPage.mount (paperId : Int) (user : Option User) : MountEffect :=
  match user with
  | none => ⟨some "/login", [], false⟩
  | some u => ⟨none, [.getPaperDetail paperId u.id], true⟩

/-- ChatPage mount: no user → push /login, render null; user →
fetchPaperInfo, calling api.getPaperDetail(paperId, user.id). -/
def ChatPage.mount (paperId : Int) (user : Option User) : MountEffect :=
  match user with
  | none => ⟨some "/login", [], false⟩
  | some u => ⟨none, [.getPaperDetail paperId u.id], true⟩

/-- MyPage (profile) mount: no user → push /login, render null; user →
only seeds the local form inputs, no API call. -/
def MyPage.mount (user : Option User) : MountEffect :=
  match user with
  | none => ⟨some "/login", [], false⟩
  | some _ => ⟨none, [], true⟩

/-! ## Chat page: handleSend -/

/-- Chat transcript roles. -/
inductive Role where
  | user : Role
  | assistant : Role

/-- A transcript message. -/
structure Message where
  role : Role
  content : String

/-- The chat page state touched by `handleSend`: the transcript, the input
field, and the loading flag. -/
structure ChatState where
  messages : List Message
  input : String
  isLoading : Bool

/-- The fixed failure text appended when the chat call throws. -/
def chatFailureMessage : String :=
  "죄송합니다. 메시지 전송에 실패했습니다. 다시 시도해주세요."

/-- `input.trim()`: the input with leading and trailing whitespace
removed. -/
def jsTrim (s : String) : String :=
  ⟨((s.data.dropWhile Char.isWhitespace).reverse.dropWhile
      Char.isWhitespace).reverse⟩

/-- The observable steps `handleSend` performs, in order. -/
inductive ChatEvent where
  | appendUserMessage (m : Message)
  | callChatApi (question : String)
  | appendAssistantMessage (m : Message)

/-- `ChatPage.handleSend`: return immediately when the trimmed input is
empty or a send is already loading; otherwise append the user message
(with the untrimmed input), clear the input, set loading, call
api.chatWithPaper on the input, append exactly one assistant message —
the API answer on success, the fixed failure text on a thrown error — and
finally clear the loading flag. The result pairs the final state with the
ordered list of steps taken. -/
def ChatPage.handleSend (st : ChatState) (apiResult : Except String String) :
    ChatState × List ChatEvent :=
  if jsTrim st.input = "" ∨ st.isLoading then (st, [])
  else
    let userMessage : Message := ⟨.user, st.input⟩
    let assistantMessage : Message :=
      match apiResult with
      | .ok answer => ⟨.assistant, answer⟩
      | .error _ => ⟨.assistant, chatFailureMessage⟩
    (⟨st.messages ++ [userMessage, assistantMessage], "", false⟩,
     [.appendUserMessage userMessage, .callChatApi st.input,
      .appendAssistantMessage assistantMessage])

/-! ## Recommendations page: stored and rendered papers -/

/-- A paper of the today-recommendations response. -/
structure RecPaper where
  paper_id : Int
  title : String
  authors : List String
  recommended_at : String

/-- The papers the page stores after a successful fetch:
`setPapers(data.papers.slice(0, 3))`. -/
def RecommendationsPage.storedPapers (papers : List RecPaper) : List RecPaper :=
  papers.take 3

/-- The papers the page renders: `const todayPapers = papers.slice(0, 3)`
over the stored state, and the render maps over `todayPapers`. -/
def RecommendationsPage.todayPapers (stored : List RecPaper) : List RecPaper :=
  stored.take 3

/-- The rendered list as a function of the server response list. -/
def RecommendationsPage.renderedPapers (papers : List RecPaper) : List RecPaper :=
  RecommendationsPage.todayPapers (RecommendationsPage.storedPapers papers)

/-! ## Graph renderer (src/frontend/components/paper-graph.tsx, default
export): a pure function from the node/edge lists to SVG shapes. -/

/-- Node types of the citation graph. -/
inductive NodeType where
  | recommended : NodeType
  | common_reference : NodeType
deriving DecidableEq

/-- A graph node. -/
structure GraphNode where
  id : Int
  title : String
  type : NodeType

/-- A graph edge (`type` is always "cites" and is not used by the
renderer). -/
structure GraphEdge where
  source : Int
  target : Int
  is_influential : Bool

/-- A node with its computed position. -/
structure PositionedNode where
  node : GraphNode
  x : Int
  y : Int

/-- Recommended nodes, laid out on the bottom row:
`x = 100 + idx * 120, y = 150` in filter order. -/
def recommendedPositions (nodes : List GraphNode) : List PositionedNode :=
  ((nodes.filter (fun n => n.type = NodeType.recommended)).enum).map
    (fun p => ⟨p.2, 100 + (p.1 : Int) * 120, 150⟩)

/-- Common-reference nodes, all placed at the top centre `(200, 50)`. -/
def commonRefPositions (nodes : List GraphNode) : List PositionedNode :=
  (nodes.filter (fun n => n.type = NodeType.common_reference)).map
    (fun n => ⟨n, 200, 50⟩)

/-- `allNodePositions`: recommended positions then common-reference
positions. -/
def allNodePositions (nodes : List GraphNode) : List PositionedNode :=
  recommendedPositions nodes ++ commonRefPositions nodes

/-- `getNodePosition`: first positioned node with the given id. -/
def getNodePosition (nodes : List GraphNode) (id : Int) : Option PositionedNode :=
  (allNodePositions nodes).find? (fun n => n.node.id = id)

/-- An SVG line as emitted for an edge. -/
structure SvgLine where
  x1 : Int
  y1 : Int
  x2 : Int
  y2 : Int
  strokeWidth : Int

/-- The line emitted for one edge: null (no output) when either endpoint
id resolves to no positioned node, otherwise the segment between the two
positions with stroke width 3 for influential edges and 2 otherwise. -/
def renderEdge (nodes : List GraphNode) (e : GraphEdge) : Option SvgLine :=
  match getNodePosition nodes e.source, getNodePosition nodes e.target with
  | some sourcePos, some targetPos =>
      some ⟨sourcePos.x, sourcePos.y, targetPos.x, targetPos.y,
            if e.is_influential then 3 else 2⟩
  | _, _ => none

/-- The lines of the edge layer, in edge order, skipped edges omitted. -/
def edgeLines (nodes : List GraphNode) (edges : List GraphEdge) : List SvgLine :=
  edges.filterMap (renderEdge nodes)

/-! ## Theorems -/

/-- C1: for every endpoint method of the API client and every network, the
shared request helper returns the parsed JSON body when the response is
ok, and when it is not ok it throws an error whose message is the `detail`
field of the JSON error body, falling back to the fixed message
"API 요청이 실패했습니다." when `detail` is absent or empty; the behaviour
is uniform across every endpoint method. -/
theorem request_error_surfacing_uniform (e : Endpoint) (net : Net) :
    ((net e.spec).ok = true → e.run net = .ok (net e.spec).body) ∧
    ((net e.spec).ok = false →
      e.run net = .error (errorMessage (net e.spec).body)) ∧
    (∀ body d, body.getField "detail" = some (.str d) → d ≠ "" →
      errorMessage body = d) ∧
    (∀ body, body.getField "detail" = none →
      errorMessage body = defaultApiErrorMessage) ∧
    (∀ body, body.getField "detail" = some (.str "") →
      errorMessage body = defaultApiErrorMessage) := by
  refine ⟨fun h => ?_, fun h => ?_, fun body d hd hne => ?_, fun body h => ?_,
    fun body h => ?_⟩
  · simp [Endpoint.run, request, h]
  · simp [Endpoint.run, request, h]
  · simp [errorMessage, hd, hne]
  · simp [errorMessage, h]
  · simp [errorMessage, h]

/-- Witness for C1 at a concrete endpoint, network and error body. -/
theorem request_error_surfacing_uniform_witness :
    (Endpoint.login "alice" "pw").run
        (fun _ => ⟨true, .num 7⟩) = .ok (.num 7) ∧
    (Endpoint.getAdvice 1).run
        (fun _ => ⟨false, .obj [("detail", .str "no such user")]⟩)
      = .error "no such user" ∧
    (Endpoint.getAdvice 1).run
        (fun _ => ⟨false, .obj []⟩) = .error defaultApiErrorMessage := by
  refine ⟨?_, ?_, ?_⟩
  · exact (request_error_surfacing_uniform (.login "alice" "pw")
      (fun _ => ⟨true, .num 7⟩)).1 rfl
  · have h := (request_error_surfacing_uniform (.getAdvice 1)
      (fun _ => ⟨false, .obj [("detail", .str "no such user")]⟩)).2.1 rfl
    simpa [errorMessage, Json.getField] using h
  · have h := (request_error_surfacing_uniform (.getAdvice 1)
      (fun _ => ⟨false, .obj []⟩)).2.1 rfl
    simpa [errorMessage, Json.getField] using h

/-- Decoding inverts serialization: the stored entry written for a user
reads back as that user. -/
theorem userOfJson_toJson (u : User) : userOfJson u.toJson = some u := rfl

/-- C2: after every session-store operation (initial load from a
well-formed storage, login, signup, logout, updateInterest, updateLevel,
updateProfile), the local-storage "user" entry is consistent with the
in-memory session: a non-null user is serialized exactly in the entry,
and a null user means the entry is absent. -/
theorem sessionStore_storage_consistency :
    consistent (AuthProvider.loadFromStorage none) ∧
    (∀ u : User, consistent (AuthProvider.loadFromStorage (some u.toJson))) ∧
    (∀ st r, consistent st → consistent (AuthProvider.login st r).1) ∧
    (∀ st r, consistent st → consistent (AuthProvider.signup st r).1) ∧
    (∀ st, consistent (AuthProvider.logout st)) ∧
    (∀ st i, consistent st → consistent (AuthProvider.updateInterest st i)) ∧
    (∀ st l, consistent st → consistent (AuthProvider.updateLevel st l)) ∧
    (∀ st i l r, consistent st →
      consistent (AuthProvider.updateProfile st i l r).state) := by
  refine ⟨rfl, fun u => ?_, fun st r h => ?_, fun st r h => ?_, fun st => rfl,
    fun st i h => ?_, fun st l h => ?_, fun st i l r h => ?_⟩
  · simp only [AuthProvider.loadFromStorage, userOfJson_toJson]
    rfl
  · cases r with
    | ok resp => simp [AuthProvider.login, consistent]
    | error msg => exact h
  · cases r with
    | ok resp => simp [AuthProvider.signup, consistent]
    | error msg => exact h
  · cases hu : st.user with
    | none => simpa [AuthProvider.updateInterest, hu] using h
    | some u => simp [AuthProvider.updateInterest, hu, consistent]
  · cases hu : st.user with
    | none => simpa [AuthProvider.updateLevel, hu] using h
    | some u => simp [AuthProvider.updateLevel, hu, consistent]
  · cases hu : st.user with
    | none => simpa [AuthProvider.updateProfile, hu] using h
    | some u =>
        cases r with
        | ok j => simp [AuthProvider.updateProfile, hu, consistent]
        | error msg => simpa [AuthProvider.updateProfile, hu] using h

/-- Witness for C2 at concrete states and operations. -/
theorem sessionStore_storage_consistency_witness :
    consistent (AuthProvider.login ⟨none, none⟩ (.error "bad password")).1 ∧
    consistent (AuthProvider.updateProfile
      ⟨some ⟨1, "alice", "NLP", "beginner"⟩,
       some (User.toJson ⟨1, "alice", "NLP", "beginner"⟩)⟩
      "RAG" "advanced" (.ok .null)).state := by
  constructor
  · exact sessionStore_storage_consistency.2.2.1 ⟨none, none⟩ (.error "bad password") rfl
  · exact sessionStore_storage_consistency.2.2.2.2.2.2.2
      ⟨some ⟨1, "alice", "NLP", "beginner"⟩,
       some (User.toJson ⟨1, "alice", "NLP", "beginner"⟩)⟩
      "RAG" "advanced" (.ok .null) rfl

/-- C3: every session-requiring page (home, recommendations, history,
paper detail, chat, profile), mounted with no user in the session store,
redirects to /login, renders nothing and invokes no API-client method;
and mounted with a user, each page's API calls carry that user. -/
theorem pages_guard_session :
    HomePage.mount none = ⟨some "/login", [], false⟩ ∧
    RecommendationsPage.mount none = ⟨some "/login", [], false⟩ ∧
    HistoryPage.mount none = ⟨some "/login", [], false⟩ ∧
    (∀ pid : Int, PaperDetailPage.mount pid none = ⟨some "/login", [], false⟩) ∧
    (∀ pid : Int, ChatPage.mount pid none = ⟨some "/login", [], false⟩) ∧
    MyPage.mount none = ⟨some "/login", [], false⟩ ∧
    (∀ u : User,
      HomePage.mount (some u) = ⟨none, [.getAdvice u.id], true⟩ ∧
      RecommendationsPage.mount (some u)
        = ⟨none, [.getTodayRecommendations u.id], true⟩ ∧
      HistoryPage.mount (some u) = ⟨none, [.getPapersHistory u.id], true⟩ ∧
      (∀ pid : Int, PaperDetailPage.mount pid (some u)
        = ⟨none, [.getPaperDetail pid u.id], true⟩) ∧
      (∀ pid : Int, ChatPage.mount pid (some u)
        = ⟨none, [.getPaperDetail pid u.id], true⟩) ∧
      MyPage.mount (some u) = ⟨none, [], true⟩) :=
  ⟨rfl, rfl, rfl, fun _ => rfl, fun _ => rfl, rfl,
   fun _ => ⟨rfl, rfl, rfl, fun _ => rfl, fun _ => rfl, rfl⟩⟩

/-- C5: the session store's login returns true exactly when the API login
call succeeds, and when the call throws it returns false with the
in-memory user and the local-storage entry exactly as before. -/
theorem login_result_and_frame (st : AuthState)
    (r : Except String AuthResponse) :
    ((AuthProvider.login st r).2 = true ↔ ∃ resp, r = .ok resp) ∧
    (∀ msg, r = .error msg → (AuthProvider.login st r).1 = st) := by
  cases r with
  | ok resp =>
      exact ⟨⟨fun _ => ⟨resp, rfl⟩, fun _ => rfl⟩, fun msg h => by cases h⟩
  | error msg =>
      refine ⟨⟨fun h => by simp [AuthProvider.login] at h, fun h => ?_⟩,
        fun m h => rfl⟩
      obtain ⟨resp, hr⟩ := h
      cases hr

/-- Witness for C5 at a concrete state and a failing API call. -/
theorem login_result_and_frame_witness :
    (AuthProvider.login
      ⟨some ⟨1, "alice", "NLP", "beginner"⟩,
       some (User.toJson ⟨1, "alice", "NLP", "beginner"⟩)⟩
      (.error "bad password")).1
      = ⟨some ⟨1, "alice", "NLP", "beginner"⟩,
         some (User.toJson ⟨1, "alice", "NLP", "beginner"⟩)⟩ :=
  (login_result_and_frame
    ⟨some ⟨1, "alice", "NLP", "beginner"⟩,
     some (User.toJson ⟨1, "alice", "NLP", "beginner"⟩)⟩
    (.error "bad password")).2 "bad password" rfl

/-- C6: updateProfile with a logged-in user and a successful API call sets
interest and level to exactly the arguments, keeps id and username, and
returns true; with no user it returns false without calling the API; and
when the API call throws it returns false with the state unchanged. -/
theorem updateProfile_frame (st : AuthState) (interest level : String)
    (r : Except String Json) :
    (∀ u, st.user = some u → ∀ j, r = .ok j →
      AuthProvider.updateProfile st interest level r =
        ⟨⟨some ⟨u.id, u.username, interest, level⟩,
          some (User.toJson ⟨u.id, u.username, interest, level⟩)⟩,
         true, true⟩) ∧
    (st.user = none →
      AuthProvider.updateProfile st interest level r = ⟨st, false, false⟩) ∧
    (∀ u, st.user = some u → ∀ msg, r = .error msg →
      AuthProvider.updateProfile st interest level r = ⟨st, false, true⟩) := by
  refine ⟨fun u hu j hj => ?_, fun hu => ?_, fun u hu msg hm => ?_⟩
  · subst hj; simp [AuthProvider.updateProfile, hu]
  · simp [AuthProvider.updateProfile, hu]
  · subst hm; simp [AuthProvider.updateProfile, hu]

/-- Witness for C6 at a concrete logged-in state and a successful call. -/
theorem updateProfile_frame_witness :
    AuthProvider.updateProfile
      ⟨some ⟨1, "alice", "NLP", "beginner"⟩,
       some (User.toJson ⟨1, "alice", "NLP", "beginner"⟩)⟩
      "RAG" "advanced" (.ok .null) =
      ⟨⟨some ⟨1, "alice", "RAG", "advanced"⟩,
        some (User.toJson ⟨1, "alice", "RAG", "advanced"⟩)⟩, true, true⟩ :=
  (updateProfile_frame
    ⟨some ⟨1, "alice", "NLP", "beginner"⟩,
     some (User.toJson ⟨1, "alice", "NLP", "beginner"⟩)⟩
    "RAG" "advanced" (.ok .null)).1
    ⟨1, "alice", "NLP", "beginner"⟩ rfl .null rfl

/-- C7: handleSend does nothing for an empty-after-trim input or while
already loading; otherwise it appends the user's message (before the API
call, as the step list records), then exactly one assistant message — the
API answer on success, the fixed failure text on a thrown error — and
clears the loading flag. -/
theorem chat_handleSend_spec (st : ChatState) (r : Except String String) :
    (jsTrim st.input = "" ∨ st.isLoading = true →
      ChatPage.handleSend st r = (st, [])) ∧
    (jsTrim st.input ≠ "" → st.isLoading = false →
      (∀ answer, r = .ok answer →
        ChatPage.handleSend st r =
          (⟨st.messages ++ [⟨.user, st.input⟩, ⟨.assistant, answer⟩],
            "", false⟩,
           [.appendUserMessage ⟨.user, st.input⟩, .callChatApi st.input,
            .appendAssistantMessage ⟨.assistant, answer⟩])) ∧
      (∀ msg, r = .error msg →
        ChatPage.handleSend st r =
          (⟨st.messages ++
              [⟨.user, st.input⟩, ⟨.assistant, chatFailureMessage⟩],
            "", false⟩,
           [.appendUserMessage ⟨.user, st.input⟩, .callChatApi st.input,
            .appendAssistantMessage ⟨.assistant, chatFailureMessage⟩]))) := by
  constructor
  · intro h
    have h' : jsTrim st.input = "" ∨ (st.isLoading : Prop) := by
      rcases h with h | h
      · exact Or.inl h
      · exact Or.inr (by simp [h])
    simp [ChatPage.handleSend, if_pos h']
  · intro h1 h2
    have h' : ¬(jsTrim st.input = "" ∨ (st.isLoading : Prop)) := by
      rintro (h | h)
      · exact h1 h
      · rw [h2] at h; cases h
    constructor
    · intro answer ha
      subst ha
      simp [ChatPage.handleSend, if_neg h']
    · intro msg hm
      subst hm
      simp [ChatPage.handleSend, if_neg h']

/-- Witness for C7: a concrete non-empty send that fails, and a concrete
whitespace-only input that sends nothing. -/
theorem chat_handleSend_spec_witness :
    ChatPage.handleSend ⟨[], "질문", false⟩ (.error "network down") =
      (⟨[⟨.user, "질문"⟩, ⟨.assistant, chatFailureMessage⟩], "", false⟩,
       [.appendUserMessage ⟨.user, "질문"⟩, .callChatApi "질문",
        .appendAssistantMessage ⟨.assistant, chatFailureMessage⟩]) ∧
    ChatPage.handleSend ⟨[], "   ", false⟩ (.ok "answer") =
      (⟨[], "   ", false⟩, []) := by
  constructor
  · exact ((chat_handleSend_spec ⟨[], "질문", false⟩ (.error "network down")).2
      (by decide) rfl).2 "network down" rfl
  · exact (chat_handleSend_spec ⟨[], "   ", false⟩ (.ok "answer")).1
      (Or.inl (by decide))

/-- C8: addPaperByArxivId ignores its userId parameter — two calls with
the same arxivId and any two userId values build identical HTTP requests,
whose body carries the constant user_id 3. -/
theorem addPaperByArxivId_ignores_userId (arxivId : String) (u1 u2 : Int) :
    (Endpoint.addPaperByArxivId arxivId u1).spec
        = (Endpoint.addPaperByArxivId arxivId u2).spec ∧
    (Endpoint.addPaperByArxivId arxivId u1).spec.body
        = some (.obj [("arxiv_id", .str arxivId), ("user_id", .num 3)]) :=
  ⟨rfl, rfl⟩

/-- C9: the recommendations page stores and renders exactly the first
three papers of the server's list, in the server's order. -/
theorem recommendations_first_three (papers : List RecPaper) :
    RecommendationsPage.storedPapers papers = papers.take 3 ∧
    RecommendationsPage.renderedPapers papers = papers.take 3 ∧
    (RecommendationsPage.renderedPapers papers).length ≤ 3 := by
  refine ⟨rfl, ?_, ?_⟩
  · simp [RecommendationsPage.renderedPapers, RecommendationsPage.todayPapers,
      RecommendationsPage.storedPapers, List.take_take]
  · simp [RecommendationsPage.renderedPapers, RecommendationsPage.todayPapers,
      RecommendationsPage.storedPapers]

/-- The recommended-node row has one position per recommended node. -/
theorem recommendedPositions_length (nodes : List GraphNode) :
    (recommendedPositions nodes).length
      = (nodes.filter (fun n => n.type = NodeType.recommended)).length := by
  simp [recommendedPositions]

/-- Every positioned node of the layout comes from the input node list. -/
theorem node_mem_of_mem_allNodePositions (nodes : List GraphNode)
    (p : PositionedNode) (hp : p ∈ allNodePositions nodes) :
    p.node ∈ nodes := by
  rcases List.mem_append.mp hp with h | h
  · have hm : p.node ∈ (recommendedPositions nodes).map PositionedNode.node :=
      List.mem_map_of_mem _ h
    rw [recommendedPositions, List.map_map] at hm
    have : ((nodes.filter (fun n => n.type = NodeType.recommended)).enum.map
        (PositionedNode.node ∘ fun p => (⟨p.2, 100 + (p.1 : Int) * 120, 150⟩ :
          PositionedNode)))
        = (nodes.filter (fun n => n.type = NodeType.recommended)).enum.map
            Prod.snd := rfl
    rw [this, List.enum_map_snd] at hm
    exact List.mem_of_mem_filter hm
  · rcases List.mem_map.mp h with ⟨n, hn, rfl⟩
    exact List.mem_of_mem_filter hn

/-- C4: the graph renderer (default export of paper-graph.tsx) is a pure
function of its node/edge list inputs: the i-th node of type recommended
(in input order) is placed at (100 + 120·i, 150), every node of type
common_reference is placed at (200, 50), every emitted edge line joins
the positions found for the edge's source and target ids with stroke
width 3 when is_influential and 2 otherwise, and every edge whose two
endpoints resolve is emitted that way. -/
theorem paperGraph_layout (nodes : List GraphNode) (edges : List GraphEdge) :
    (∀ i (h : i < (recommendedPositions nodes).length),
      (recommendedPositions nodes).get ⟨i, h⟩ =
        ⟨(nodes.filter (fun n => n.type = NodeType.recommended)).get
            ⟨i, by rwa [recommendedPositions_length] at h⟩,
         100 + (i : Int) * 120, 150⟩) ∧
    (∀ p ∈ commonRefPositions nodes, p.x = 200 ∧ p.y = 50) ∧
    (∀ l ∈ edgeLines nodes edges, ∃ e ∈ edges, renderEdge nodes e = some l) ∧
    (∀ e ∈ edges, ∀ sp tp, getNodePosition nodes e.source = some sp →
      getNodePosition nodes e.target = some tp →
      renderEdge nodes e =
        some ⟨sp.x, sp.y, tp.x, tp.y, if e.is_influential then 3 else 2⟩) := by
  refine ⟨fun i h => ?_, fun p hp => ?_, fun l hl => ?_,
    fun e _ sp tp hsp htp => ?_⟩
  · simp [recommendedPositions, List.get_eq_getElem, List.getElem_map,
      List.getElem_enum]
  · rcases List.mem_map.mp hp with ⟨n, _, rfl⟩
    exact ⟨rfl, rfl⟩
  · exact List.mem_filterMap.mp hl
  · simp [renderEdge, hsp, htp]

/-- Witness for C4 on a concrete three-node, one-edge graph. -/
theorem paperGraph_layout_witness :
    (recommendedPositions
        [⟨1, "A", .recommended⟩, ⟨2, "B", .recommended⟩,
         ⟨3, "D", .common_reference⟩]).get ⟨1, by decide⟩ =
      ⟨⟨2, "B", .recommended⟩, 220, 150⟩ ∧
    renderEdge
        [⟨1, "A", .recommended⟩, ⟨2, "B", .recommended⟩,
         ⟨3, "D", .common_reference⟩] ⟨1, 3, true⟩ =
      some ⟨100, 150, 200, 50, 3⟩ := by
  have h := paperGraph_layout
    [⟨1, "A", .recommended⟩, ⟨2, "B", .recommended⟩,
     ⟨3, "D", .common_reference⟩] [⟨1, 3, true⟩]
  constructor
  · have h1 := h.1 1 (by decide)
    simpa using h1
  · have h4 := h.2.2.2 ⟨1, 3, true⟩ (by simp)
      ⟨⟨1, "A", .recommended⟩, 100, 150⟩ ⟨⟨3, "D", .common_reference⟩, 200, 50⟩
      rfl rfl
    simpa using h4

/-- When no input node carries an id, that id resolves to no position. -/
theorem getNodePosition_eq_none (nodes : List GraphNode) (id : Int)
    (h : ∀ n ∈ nodes, n.id ≠ id) : getNodePosition nodes id = none := by
  apply List.find?_eq_none.mpr
  intro p hp
  simp only [decide_eq_true_eq]
  exact h p.node (node_mem_of_mem_allNodePositions nodes p hp)

/-- C10: an edge whose source id or target id matches no node is skipped
entirely — removing it from the edge list leaves the rendered lines
unchanged — so edge rendering is total over arbitrary node/edge inputs,
dangling references included. -/
theorem paperGraph_skips_dangling_edges (nodes : List GraphNode)
    (xs ys : List GraphEdge) (e : GraphEdge)
    (h : (∀ n ∈ nodes, n.id ≠ e.source) ∨ (∀ n ∈ nodes, n.id ≠ e.target)) :
    edgeLines nodes (xs ++ e :: ys) = edgeLines nodes (xs ++ ys) := by
  have he : renderEdge nodes e = none := by
    rcases h with h | h
    · simp [renderEdge, getNodePosition_eq_none nodes e.source h]
    · unfold renderEdge
      rw [getNodePosition_eq_none nodes e.target h]
      rcases getNodePosition nodes e.source with _ | p <;> rfl
  simp [edgeLines, List.filterMap_append, List.filterMap_cons_none he]

/-- Witness for C10: removing a dangling edge between absent ids leaves
the line list of a concrete graph unchanged. -/
theorem paperGraph_skips_dangling_edges_witness :
    edgeLines [⟨1, "A", .recommended⟩, ⟨3, "D", .common_reference⟩]
        ([⟨1, 3, false⟩] ++ ⟨1, 99, true⟩ :: []) =
      edgeLines [⟨1, "A", .recommended⟩, ⟨3, "D", .common_reference⟩]
        ([⟨1, 3, false⟩] ++ []) :=
  paperGraph_skips_dangling_edges
    [⟨1, "A", .recommended⟩, ⟨3, "D", .common_reference⟩]
    [⟨1, 3, false⟩] [] ⟨1, 99, true⟩
    (Or.inr (by decide))

end ResearchMate
